import Mathlib

/-!
Shallow embedding of the coda-mcp repository's page-content subsystem.

The tool handlers (`coda_get_page_content`, `coda_peek_page`,
`coda_duplicate_page`, `coda_list_pages`) are embedded from
`src/src/server.ts`.  Each handler is modelled as a pure function of the
outcome of its remote collaborators: a TypeScript `try`/`catch` block around
awaited calls becomes a match on an `Except` value, `string | undefined`
becomes `Option String`, and the returned `CallToolResult` becomes
`ToolResult` (text plus `isError` flag).

The orchestrating export pipeline (`getPageContent` in `client/helpers.ts`)
is imported by `server.ts` but its source is not part of the repository
snapshot; the definitions concerning it are modelled from the specification
(sections 3, 4.2, 4.4) and are marked as such in their doc comments.
-/

namespace Coda

/-- Modelled from the spec: the status enum of an `ExportJob`
(section 3 of the spec; `client/helpers.ts` is missing from the snapshot). -/
inductive JobStatus where
  | pending
  | inProgress
  | complete
  | failed
deriving DecidableEq, Repr

/-- A terminal status is `complete` or `failed` (spec glossary). -/
def JobStatus.isTerminal : JobStatus → Bool
  | .complete => true
  | .failed => true
  | _ => false

/-- The error taxonomy of the spec (section 7) plus `thrown`, which models a
JavaScript `Error` thrown locally inside a handler (as `server.ts` does with
`new Error("Unknown error has occurred")`). -/
inductive CodaError where
  | notFound (msg : String)
  | invalidRequest (msg : String)
  | transientServiceError (msg : String)
  | pollTimeout (lastStatus : JobStatus)
  | fetchError (msg : String)
  | jobFailed (reason : String)
  | thrown (msg : String)
deriving DecidableEq, Repr

/-- Models JavaScript string interpolation of a caught error value, as in the
template literals of `server.ts`.  A thrown `Error` object renders as
"Error: message"; service errors render with their kind tag. -/
def describeError : CodaError → String
  | .notFound m => "NotFound: " ++ m
  | .invalidRequest m => "InvalidRequest: " ++ m
  | .transientServiceError m => "TransientServiceError: " ++ m
  | .pollTimeout _ => "PollTimeout"
  | .fetchError m => "FetchError: " ++ m
  | .jobFailed m => "JobFailed: " ++ m
  | .thrown m => "Error: " ++ m

/-- The result a tool handler returns to the MCP layer: the single text
content item and the `isError` flag (absent flag = `false`). -/
structure ToolResult where
  text : String
  isError : Bool
deriving DecidableEq, Repr

/-- Splitting on the regex `/\r?\n/` from `coda_peek_page`
(src/src/server.ts line 161): both "\n" and "\r\n" separate lines, a lone
"\r" does not. -/
def splitLinesAux : List Char → List Char → List String
  | [], acc => [String.mk acc.reverse]
  | '\r' :: '\n' :: rest, acc => String.mk acc.reverse :: splitLinesAux rest []
  | '\n' :: rest, acc => String.mk acc.reverse :: splitLinesAux rest []
  | c :: rest, acc => splitLinesAux rest (c :: acc)

/-- `content.split(/\r?\n/)` from src/src/server.ts line 161. -/
def splitLines (s : String) : List String :=
  splitLinesAux s.data []

/-- `.join("\n")` from src/src/server.ts line 161. -/
def joinLines (ls : List String) : String :=
  String.intercalate "\n" ls

/-- The preview computation `content.split(/\r?\n/).slice(0, numLines).join("\n")`
of src/src/server.ts line 161. -/
def peekPreview (content : String) (numLines : Nat) : String :=
  joinLines ((splitLines content).take numLines)

/-- The zod schema `z.number().int().positive()` used for `numLines` in
`coda_peek_page` (src/src/server.ts lines 147-151): an integer argument is
accepted exactly when it is positive. -/
def numLinesValid (n : Int) : Prop :=
  0 < n

instance (n : Int) : Decidable (numLinesValid n) := by
  unfold numLinesValid; infer_instance

/-- The `coda_get_page_content` handler (src/src/server.ts lines 119-139) as a
function of the outcome of `getPageContent` (which either throws — the
`Except.error` case, caught by the handler — or returns `string | undefined`).
An `undefined` result is converted to a thrown `Error("Unknown error has
occurred")`, caught by the same handler. -/
def codaGetPageContent (helper : Except CodaError (Option String)) : ToolResult :=
  match helper with
  | .error e => ⟨"Failed to get page content: " ++ describeError e, true⟩
  | .ok none =>
      ⟨"Failed to get page content: " ++ describeError (.thrown "Unknown error has occurred"), true⟩
  | .ok (some content) => ⟨content, false⟩

/-- The `coda_peek_page` handler (src/src/server.ts lines 141-171) as a
function of the outcome of `getPageContent` and of `numLines`.  The guard
`if (!content)` is a JavaScript falsiness test: it fires on `undefined` and
also on the empty string. -/
def codaPeekPage (helper : Except CodaError (Option String)) (numLines : Nat) : ToolResult :=
  match helper with
  | .error e => ⟨"Failed to peek page: " ++ describeError e, true⟩
  | .ok none =>
      ⟨"Failed to peek page: " ++ describeError (.thrown "Unknown error has occurred"), true⟩
  | .ok (some content) =>
      if content = "" then
        ⟨"Failed to peek page: " ++ describeError (.thrown "Unknown error has occurred"), true⟩
      else
        ⟨peekPreview content numLines, false⟩

/-- Outcome of one `coda_duplicate_page` invocation: the tool result together
with whether the `createPage` collaborator was invoked. -/
structure DuplicateOutcome where
  result : ToolResult
  createInvoked : Bool
deriving DecidableEq, Repr

/-- The `coda_duplicate_page` handler (src/src/server.ts lines 237-262) as a
function of the outcome of `getPageContent` and of the `createPage`
collaborator (itself a function of the forwarded content, which the handler
passes along unchecked — `undefined` included).  If `getPageContent` throws,
the `catch` block returns the error result and `createPage` is never
reached. -/
def codaDuplicatePage (helper : Except CodaError (Option String))
    (create : Option String → Except CodaError String) : DuplicateOutcome :=
  match helper with
  | .error e => ⟨⟨"Failed to duplicate page: " ++ describeError e, true⟩, false⟩
  | .ok pageContent =>
      match create pageContent with
      | .error e => ⟨⟨"Failed to duplicate page: " ++ describeError e, true⟩, true⟩
      | .ok data => ⟨⟨data, false⟩, true⟩

/-- The query record the `coda_list_pages` handler passes to the remote
`listPages` call (src/src/server.ts lines 68-72). -/
structure ListPagesQuery where
  limit : Option Nat
  pageToken : Option String
deriving DecidableEq, Repr

/-- JavaScript truthiness of an optional string: `undefined` and the empty
string are falsy, every other string is truthy. -/
def strTruthy : Option String → Bool
  | none => false
  | some s => !(s == "")

/-- The argument computation of `coda_list_pages` (src/src/server.ts lines
64-72): `listLimit = nextPageToken ? undefined : limit` and
`pageToken: nextPageToken ?? undefined`. -/
def codaListPagesQuery (limit : Option Nat) (nextPageToken : Option String) : ListPagesQuery :=
  { limit := if strTruthy nextPageToken then none else limit
  , pageToken := nextPageToken }

/-- Modelled from the spec: an `ExportJob` (section 3); `client/helpers.ts`,
which manipulates it, is missing from the snapshot. -/
structure ExportJob where
  jobId : String
  status : JobStatus
  contentLocator : Option String
  failureReason : Option String
deriving DecidableEq, Repr

/-- Modelled from the spec: the `PollPolicy` configuration (section 3).
Delays and the timeout are in milliseconds, modelled as naturals. -/
structure PollPolicy where
  maxAttempts : Nat
  initialDelay : Nat
  backoffMultiplier : Nat
  maxDelay : Nat
  overallTimeout : Nat
deriving DecidableEq, Repr

/-- Modelled from the spec: the delay update
`delay = min(delay * backoffMultiplier, maxDelay)` (section 4.2). -/
def nextDelay (p : PollPolicy) (d : Nat) : Nat :=
  min (d * p.backoffMultiplier) p.maxDelay

/-- Modelled from the spec: the sequence of inter-attempt delays, starting at
`initialDelay` and then clamped by `nextDelay` (sections 3 and 4.2). -/
def delaySeq (p : PollPolicy) : Nat → Nat
  | 0 => p.initialDelay
  | n + 1 => nextDelay p (delaySeq p n)

/-- Modelled from the spec: the payload of `getExportStatus(jobId)`
(section 6): a status plus optional content locator and failure reason. -/
structure StatusReport where
  status : JobStatus
  contentLocator : Option String
  failureReason : Option String
deriving DecidableEq, Repr

/-- Modelled from the spec: the outcome of one status query — either a status
report or a transient network/server failure of the query itself
(section 4.2). -/
inductive QueryResult where
  | report (r : StatusReport)
  | transientFailure (msg : String)
deriving DecidableEq, Repr

/-- A query response that does not end the poll: a transient query failure,
or a report whose status is still non-terminal. -/
def nonTerminalResponse : QueryResult → Bool
  | .transientFailure _ => true
  | .report r => !r.status.isTerminal

/-- Modelled from the spec: the "last known status" of a job after the first
`n` status queries — the status of the most recent successful report, or the
job's initial status if every query so far failed transiently
(section 4.2). -/
def lastKnownStatus (queries : Nat → QueryResult) (init : JobStatus) : Nat → JobStatus
  | 0 => init
  | n + 1 =>
      match queries n with
      | .report r => r.status
      | .transientFailure _ => lastKnownStatus queries init n

/-- Modelled from the spec: the Export Poller loop of section 4.2
(`awaitCompletion`), the core of the missing `client/helpers.ts`.  `queries`
is the remote service's response to the i-th status query.  `fuel` is the
number of attempts remaining; each iteration — whether the query yields a
report or fails transiently — consumes one attempt.  On each attempt, if the
time budget is spent the loop fails with `PollTimeout` carrying the last
known status; otherwise it queries.  Complete with a locator and Failed are
returned as terminal jobs; Complete without a locator is converted to Failed
with reason "missing content locator"; a non-terminal report or a transient
query failure suspends for `delay`, clamps the delay, and retries.  The
second component of the result is the number of status queries issued. -/
def awaitLoop (queries : Nat → QueryResult) (p : PollPolicy) (job : ExportJob) :
    Nat → Nat → Nat → Nat → JobStatus → Except CodaError ExportJob × Nat
  | 0, attempt, _, _, lastStatus => (.error (.pollTimeout lastStatus), attempt)
  | fuel + 1, attempt, elapsed, delay, lastStatus =>
    if p.overallTimeout ≤ elapsed then
      (.error (.pollTimeout lastStatus), attempt)
    else
      match queries attempt with
      | .transientFailure _ =>
          awaitLoop queries p job fuel (attempt + 1) (elapsed + delay) (nextDelay p delay) lastStatus
      | .report r =>
        match r.status with
        | .complete =>
          match r.contentLocator with
          | some loc =>
              (.ok { job with status := .complete, contentLocator := some loc, failureReason := none },
               attempt + 1)
          | none =>
              (.ok { job with status := .failed, contentLocator := none, failureReason := some "missing content locator" },
               attempt + 1)
        | .failed =>
            (.ok { job with status := .failed, contentLocator := none, failureReason := r.failureReason },
             attempt + 1)
        | .pending =>
            awaitLoop queries p job fuel (attempt + 1) (elapsed + delay) (nextDelay p delay) .pending
        | .inProgress =>
            awaitLoop queries p job fuel (attempt + 1) (elapsed + delay) (nextDelay p delay) .inProgress

/-- Modelled from the spec: `awaitCompletion(job, policy)` of section 4.2.
The attempt counter starts at 0, elapsed time at 0, and the first
inter-attempt delay is `initialDelay`; the last known status starts as the
job's own status. -/
def awaitCompletion (queries : Nat → QueryResult) (p : PollPolicy) (job : ExportJob) :
    Except CodaError ExportJob × Nat :=
  awaitLoop queries p job p.maxAttempts 0 0 p.initialDelay job.status

/-- Modelled from the spec: the remote collaborators of the page-content
pipeline (section 6) — the outcome of `submitExport`, the status-query
oracle, and `downloadContent` by locator. -/
structure Remote where
  submitExport : Except CodaError ExportJob
  queries : Nat → QueryResult
  download : String → Except CodaError String

/-- Modelled from the spec: `getFullContent` of section 4.4, the missing
orchestrator in `client/helpers.ts`: Requester → Poller → Fetcher in
sequence, propagating the first failure unchanged; a job the Poller returns
as Failed surfaces as `JobFailed` with its reason; the result is absent
(`none`) only if every stage reports success but the rendered content is
empty, which is treated as a valid empty page, not an error. -/
def getFullContent (r : Remote) (p : PollPolicy) : Except CodaError (Option String) :=
  match r.submitExport with
  | .error e => .error e
  | .ok job =>
    match (awaitCompletion r.queries p job).1 with
    | .error e => .error e
    | .ok j =>
      if j.status = .failed then
        .error (.jobFailed (j.failureReason.getD "export failed"))
      else
        match j.contentLocator with
        | none => .error (.fetchError "missing content locator")
        | some loc =>
          match r.download loc with
          | .error e => .error e
          | .ok text => if text = "" then .ok none else .ok (some text)

/-- A fresh export job as issued by the Requester: pending, no locator, no
failure reason. -/
def job1 : ExportJob :=
  ⟨"j1", .pending, none, none⟩

/-- The policy of the spec's backoff example: `initialDelay=100,
backoffMultiplier=2, maxDelay=1000` (spec section 8), with ten attempts and a
one-minute overall budget. -/
def policy100 : PollPolicy :=
  ⟨10, 100, 2, 1000, 60000⟩

/-- A policy whose unclamped initial delay already exceeds `maxDelay`. -/
def badPolicy : PollPolicy :=
  ⟨10, 1001, 2, 1000, 60000⟩

/-- A remote on which every stage succeeds and the rendered content is the
empty string: the export is accepted, the first status query reports Complete
with locator "L1", and downloading "L1" yields "". -/
def emptyPageRemote : Remote :=
  { submitExport := .ok job1
  , queries := fun _ => .report ⟨.complete, some "L1", none⟩
  , download := fun _ => .ok "" }

/-!
Helper lemmas about the poll loop.
-/

/-- A job the poll loop returns successfully is terminal: Complete — and then
it carries a content locator — or Failed. -/
theorem awaitLoop_fst_ok (queries : Nat → QueryResult) (p : PollPolicy) (job : ExportJob) :
    ∀ (fuel attempt elapsed delay : Nat) (ls : JobStatus) (j : ExportJob),
      (awaitLoop queries p job fuel attempt elapsed delay ls).1 = .ok j →
      (j.status = .complete ∧ ∃ loc, j.contentLocator = some loc) ∨ j.status = .failed := by
  intro fuel
  induction fuel with
  | zero =>
    intro attempt elapsed delay ls j h
    simp [awaitLoop] at h
  | succ fuel ih =>
    intro attempt elapsed delay ls j h
    rw [awaitLoop] at h
    by_cases ht : p.overallTimeout ≤ elapsed
    · rw [if_pos ht] at h
      simp at h
    · rw [if_neg ht] at h
      cases hq : queries attempt with
      | transientFailure m =>
        rw [hq] at h
        exact ih _ _ _ _ _ h
      | report r =>
        rw [hq] at h
        rcases r with ⟨st, loc, fr⟩
        cases st with
        | pending => exact ih _ _ _ _ _ h
        | inProgress => exact ih _ _ _ _ _ h
        | failed =>
          simp at h
          subst h
          exact .inr rfl
        | complete =>
          cases loc with
          | some l =>
            simp at h
            subst h
            exact .inl ⟨rfl, l, rfl⟩
          | none =>
            simp at h
            subst h
            exact .inr rfl

/-- Every status query the poll loop issues before its last one received a
non-terminal response: a query is made only while the job is not known to be
terminal. -/
theorem awaitLoop_snd_nonTerminal (queries : Nat → QueryResult) (p : PollPolicy) (job : ExportJob) :
    ∀ (fuel attempt elapsed delay : Nat) (ls : JobStatus) (i : Nat),
      attempt ≤ i →
      i + 1 < (awaitLoop queries p job fuel attempt elapsed delay ls).2 →
      nonTerminalResponse (queries i) = true := by
  intro fuel
  induction fuel with
  | zero =>
    intro attempt elapsed delay ls i hai h
    simp [awaitLoop] at h
    omega
  | succ fuel ih =>
    intro attempt elapsed delay ls i hai h
    rw [awaitLoop] at h
    by_cases ht : p.overallTimeout ≤ elapsed
    · rw [if_pos ht] at h
      simp at h
      omega
    · rw [if_neg ht] at h
      cases hq : queries attempt with
      | transientFailure m =>
        rw [hq] at h
        by_cases hi : i = attempt
        · rw [hi, hq]; rfl
        · exact ih _ _ _ _ i (by omega) h
      | report r =>
        rw [hq] at h
        rcases r with ⟨st, loc, fr⟩
        cases st with
        | pending =>
          by_cases hi : i = attempt
          · rw [hi, hq]; rfl
          · exact ih _ _ _ _ i (by omega) h
        | inProgress =>
          by_cases hi : i = attempt
          · rw [hi, hq]; rfl
          · exact ih _ _ _ _ i (by omega) h
        | failed =>
          simp at h
          omega
        | complete =>
          cases loc with
          | some l => simp at h; omega
          | none => simp at h; omega

/-- If every status query receives a non-terminal response, the poll loop
fails with `PollTimeout` carrying the last known status among the responses
it consumed. -/
theorem awaitLoop_timeout (queries : Nat → QueryResult) (p : PollPolicy) (job : ExportJob)
    (hq : ∀ i, nonTerminalResponse (queries i) = true) :
    ∀ (fuel attempt elapsed delay : Nat),
      ∃ n, awaitLoop queries p job fuel attempt elapsed delay
            (lastKnownStatus queries job.status attempt)
          = (.error (.pollTimeout (lastKnownStatus queries job.status n)), n) := by
  intro fuel
  induction fuel with
  | zero =>
    intro attempt elapsed delay
    exact ⟨attempt, rfl⟩
  | succ fuel ih =>
    intro attempt elapsed delay
    rw [awaitLoop]
    by_cases ht : p.overallTimeout ≤ elapsed
    · rw [if_pos ht]
      exact ⟨attempt, rfl⟩
    · rw [if_neg ht]
      have hnt := hq attempt
      cases hqa : queries attempt with
      | transientFailure m =>
        have hlast : lastKnownStatus queries job.status (attempt + 1)
            = lastKnownStatus queries job.status attempt := by
          rw [lastKnownStatus, hqa]
        rcases ih (attempt + 1) (elapsed + delay) (nextDelay p delay) with ⟨n, hn⟩
        rw [hlast] at hn
        exact ⟨n, hn⟩
      | report r =>
        rw [hqa] at hnt
        rcases r with ⟨st, loc, fr⟩
        have hlast : lastKnownStatus queries job.status (attempt + 1) = st := by
          rw [lastKnownStatus, hqa]
        cases st with
        | complete => simp [nonTerminalResponse, JobStatus.isTerminal] at hnt
        | failed => simp [nonTerminalResponse, JobStatus.isTerminal] at hnt
        | pending =>
          rcases ih (attempt + 1) (elapsed + delay) (nextDelay p delay) with ⟨n, hn⟩
          rw [hlast] at hn
          exact ⟨n, hn⟩
        | inProgress =>
          rcases ih (attempt + 1) (elapsed + delay) (nextDelay p delay) with ⟨n, hn⟩
          rw [hlast] at hn
          exact ⟨n, hn⟩

/-!
Claim theorems.
-/

/-- Claim C2, counterexample: the claim quantifies over every page content
string, but on the empty content string (a page with `min(1, totalLines)` =
one empty line) `coda_peek_page` does not return the rejoined preview — its
falsiness guard reports an error result instead. -/
theorem codaPeekPage_empty_content_not_preview :
    (codaPeekPage (.ok (some "")) 1).isError = true ∧
    codaPeekPage (.ok (some "")) 1 ≠ ⟨joinLines ((splitLines "").take 1), false⟩ := by
  decide

/-- Claim C2, amended: for every NON-EMPTY page content string and every
requested number of lines, `coda_peek_page` splits the content on "\n" and
"\r\n" boundaries and returns the first `numLines` lines rejoined with "\n";
the number of lines kept is exactly `min(numLines, totalLines)`; a lone "\r"
does not separate lines; and `numLines = 0` is rejected by the
positive-integer schema. -/
theorem codaPeekPage_preview_correct :
    (∀ (content : String) (n : Nat), content ≠ "" →
      codaPeekPage (.ok (some content)) n
        = ⟨joinLines ((splitLines content).take n), false⟩) ∧
    (∀ (content : String) (n : Nat),
      ((splitLines content).take n).length = min n (splitLines content).length) ∧
    splitLines "a\r\nb\nc" = ["a", "b", "c"] ∧
    ¬ numLinesValid 0 := by
  refine ⟨?_, ?_, by decide, by decide⟩
  · intro content n h
    rw [codaPeekPage, if_neg h]
    rfl
  · intro content n
    exact List.length_take n (splitLines content)

/-- Claim C2, witness: peeking 2 lines of "a\nb\nc" yields "a\nb" (the
spec's own idempotence-of-shape example). -/
theorem codaPeekPage_preview_correct_witness :
    codaPeekPage (.ok (some "a\nb\nc")) 2 = ⟨"a\nb", false⟩ := by
  have h := codaPeekPage_preview_correct.1 "a\nb\nc" 2 (by decide)
  exact h.trans (by decide)

/-- Claim C3: if `getPageContent` throws, `coda_duplicate_page` returns an
error result embedding the verbatim description of that same error, and the
`createPage` collaborator is never invoked — no partial page is created. -/
theorem codaDuplicatePage_fail_no_create :
    ∀ (e : CodaError) (create : Option String → Except CodaError String),
      codaDuplicatePage (.error e) create
        = ⟨⟨"Failed to duplicate page: " ++ describeError e, true⟩, false⟩ :=
  fun _ _ => rfl

/-- Claim C8: each of the three tool handlers converts a failure of any stage
into a structured result carrying a textual error description and flagged
`isError`, rather than raising: a `getPageContent` failure in
`coda_get_page_content`, in `coda_peek_page`, and in `coda_duplicate_page`,
and a `createPage` failure in `coda_duplicate_page`. -/
theorem handlers_structured_errors :
    (∀ e : CodaError, codaGetPageContent (.error e)
        = ⟨"Failed to get page content: " ++ describeError e, true⟩) ∧
    (∀ (e : CodaError) (n : Nat), codaPeekPage (.error e) n
        = ⟨"Failed to peek page: " ++ describeError e, true⟩) ∧
    (∀ (e : CodaError) (create : Option String → Except CodaError String),
      (codaDuplicatePage (.error e) create).result
        = ⟨"Failed to duplicate page: " ++ describeError e, true⟩) ∧
    (∀ (c : Option String) (e : CodaError),
      (codaDuplicatePage (.ok c) (fun _ => .error e)).result
        = ⟨"Failed to duplicate page: " ++ describeError e, true⟩) :=
  ⟨fun _ => rfl, fun _ _ => rfl, fun _ _ => rfl, fun _ _ => rfl⟩

/-- Claim C9: when the retrieved full content is the empty string, the
falsiness guard of `coda_peek_page` treats it as a failure, so the handler
returns the error result "Failed to peek page: Error: Unknown error has
occurred" instead of an empty preview, for every requested line count. -/
theorem codaPeekPage_empty_string_errors :
    ∀ n : Nat, codaPeekPage (.ok (some "")) n
      = ⟨"Failed to peek page: Error: Unknown error has occurred", true⟩ :=
  fun _ => rfl

/-- Claim C10, counterexample: with the empty string supplied as
`nextPageToken` (accepted by the optional-string schema), the truthiness
test `nextPageToken ? undefined : limit` keeps the caller's limit, so the
remote call is NOT issued with limit undefined. -/
theorem codaListPages_empty_token_keeps_limit :
    codaListPagesQuery (some 5) (some "") = ⟨some 5, some ""⟩ ∧
    (codaListPagesQuery (some 5) (some "")).limit ≠ none := by
  decide

/-- Claim C10, amended: whenever a NON-EMPTY `nextPageToken` is supplied,
the caller-provided limit is discarded (the remote `listPages` call is
issued with limit undefined and the token passed through); with no token
the limit is passed through, so the limit affects only first-page
requests (an empty-string token also keeps the limit). -/
theorem codaListPages_nonempty_token_discards_limit :
    (∀ (l : Option Nat) (t : String), t ≠ "" →
      codaListPagesQuery l (some t) = ⟨none, some t⟩) ∧
    (∀ l : Option Nat, codaListPagesQuery l none = ⟨l, none⟩) := by
  constructor
  · intro l t ht
    rw [codaListPagesQuery]
    have : strTruthy (some t) = true := by
      simp [strTruthy, ht]
    rw [this, if_pos rfl]
  · intro l
    rfl

/-- Claim C10, witness: a non-empty token "tok" discards the limit 5. -/
theorem codaListPages_nonempty_token_witness :
    codaListPagesQuery (some 5) (some "tok") = ⟨none, some "tok"⟩ :=
  codaListPages_nonempty_token_discards_limit.1 (some 5) "tok" (by decide)

/-- A status-query oracle that always reports Complete without a content
locator. -/
def completeNoLocQueries : Nat → QueryResult :=
  fun _ => .report ⟨.complete, none, none⟩

/-- A status-query oracle whose first query fails transiently and whose later
queries report Complete with locator "L1". -/
def transientThenComplete : Nat → QueryResult :=
  fun i => if i = 0 then .transientFailure "net" else .report ⟨.complete, some "L1", none⟩

/-- A status-query oracle that always reports InProgress. -/
def alwaysInProgress : Nat → QueryResult :=
  fun _ => .report ⟨.inProgress, none, none⟩

/-- A status-query oracle on which every status query fails transiently. -/
def alwaysTransient : Nat → QueryResult :=
  fun _ => .transientFailure "network error"

/-- Claim C4: a job the Poller returns successfully with status Complete
always carries a content locator; and when the remote reports Complete
without a content locator, the Poller returns the job converted to Failed
with reason "missing content locator" — never forwarded as a success. -/
theorem awaitCompletion_missing_locator :
    (∀ (queries : Nat → QueryResult) (p : PollPolicy) (job j : ExportJob) (n : Nat),
      awaitCompletion queries p job = (.ok j, n) → j.status = .complete →
      ∃ loc, j.contentLocator = some loc) ∧
    (∀ (queries : Nat → QueryResult) (p : PollPolicy) (job : ExportJob) (fr : Option String),
      0 < p.maxAttempts → 0 < p.overallTimeout →
      queries 0 = .report ⟨.complete, none, fr⟩ →
      (awaitCompletion queries p job).1
        = .ok { job with status := .failed, contentLocator := none, failureReason := some "missing content locator" }) := by
  constructor
  · intro queries p job j n h hc
    have h1 : (awaitCompletion queries p job).1 = .ok j := by rw [h]
    rw [awaitCompletion] at h1
    rcases awaitLoop_fst_ok queries p job _ _ _ _ _ _ h1 with ⟨_, hl⟩ | hf
    · exact hl
    · rw [hc] at hf
      exact absurd hf (by simp)
  · intro queries p job fr hma hto hq0
    obtain ⟨k, hk⟩ : ∃ k, p.maxAttempts = k + 1 := ⟨p.maxAttempts - 1, by omega⟩
    rw [awaitCompletion, hk, awaitLoop, if_neg (by omega), hq0]

/-- Claim C4, witness: on an oracle reporting Complete with locator "L1"
the returned Complete job carries its locator, and on an oracle reporting
Complete without a locator the Poller returns the job as Failed with reason
"missing content locator". -/
theorem awaitCompletion_missing_locator_witness :
    (∃ loc, (⟨"j1", .complete, some "L1", none⟩ : ExportJob).contentLocator = some loc) ∧
    (awaitCompletion completeNoLocQueries policy100 job1).1
      = .ok { job1 with status := .failed, contentLocator := none, failureReason := some "missing content locator" } := by
  constructor
  · exact awaitCompletion_missing_locator.1 (fun _ => .report ⟨.complete, some "L1", none⟩)
      policy100 job1 ⟨"j1", .complete, some "L1", none⟩ 1 rfl rfl
  · exact awaitCompletion_missing_locator.2 completeNoLocQueries policy100 job1 none
      (by decide) (by decide) rfl

/-- Claim C5: every job the Poller returns successfully has status Complete
or Failed — Pending/InProgress are never returned as final results — and
every status query issued before the final one received a non-terminal
response, so a job is queried only while non-terminal. -/
theorem awaitCompletion_returns_terminal :
    (∀ (queries : Nat → QueryResult) (p : PollPolicy) (job j : ExportJob) (n : Nat),
      awaitCompletion queries p job = (.ok j, n) →
      j.status = .complete ∨ j.status = .failed) ∧
    (∀ (queries : Nat → QueryResult) (p : PollPolicy) (job : ExportJob) (i : Nat),
      i + 1 < (awaitCompletion queries p job).2 →
      nonTerminalResponse (queries i) = true) := by
  constructor
  · intro queries p job j n h
    have h1 : (awaitCompletion queries p job).1 = .ok j := by rw [h]
    rw [awaitCompletion] at h1
    rcases awaitLoop_fst_ok queries p job _ _ _ _ _ _ h1 with ⟨hc, _⟩ | hf
    · exact .inl hc
    · exact .inr hf
  · intro queries p job i h
    rw [awaitCompletion] at h
    exact awaitLoop_snd_nonTerminal queries p job _ _ _ _ _ i (Nat.zero_le i) h

/-- Claim C5, witness: the job returned on an immediately-Complete oracle is
terminal, and the first response consumed on a transient-then-complete
oracle (which issues two queries) was non-terminal. -/
theorem awaitCompletion_returns_terminal_witness :
    ((⟨"j1", .complete, some "L1", none⟩ : ExportJob).status = .complete ∨
      (⟨"j1", .complete, some "L1", none⟩ : ExportJob).status = .failed) ∧
    nonTerminalResponse (transientThenComplete 0) = true := by
  constructor
  · exact awaitCompletion_returns_terminal.1 (fun _ => .report ⟨.complete, some "L1", none⟩)
      policy100 job1 ⟨"j1", .complete, some "L1", none⟩ 1 rfl
  · exact awaitCompletion_returns_terminal.2 transientThenComplete policy100 job1 0 (by decide)

/-- Claim C6: if every status query receives a non-terminal response (the
remote never reaches a terminal state within the budget), the Poller fails
with `PollTimeout` carrying the job's last known status; and a transiently
failing status query consumes exactly one attempt and the poll continues,
rather than aborting. -/
theorem pollTimeout_and_transient_counts :
    (∀ (queries : Nat → QueryResult) (p : PollPolicy) (job : ExportJob),
      (∀ i, nonTerminalResponse (queries i) = true) →
      ∃ n, awaitCompletion queries p job
          = (.error (.pollTimeout (lastKnownStatus queries job.status n)), n)) ∧
    (∀ (queries : Nat → QueryResult) (p : PollPolicy) (job : ExportJob)
        (fuel attempt elapsed delay : Nat) (ls : JobStatus) (m : String),
      queries attempt = .transientFailure m → elapsed < p.overallTimeout →
      awaitLoop queries p job (fuel + 1) attempt elapsed delay ls
        = awaitLoop queries p job fuel (attempt + 1) (elapsed + delay) (nextDelay p delay) ls) := by
  constructor
  · intro queries p job hq
    rcases awaitLoop_timeout queries p job hq p.maxAttempts 0 0 p.initialDelay with ⟨n, hn⟩
    refine ⟨n, ?_⟩
    rw [awaitCompletion]
    rw [show lastKnownStatus queries job.status 0 = job.status from rfl] at hn
    exact hn
  · intro queries p job fuel attempt elapsed delay ls m hq hlt
    rw [awaitLoop, if_neg (by omega), hq]

/-- Claim C6, witness: on an always-InProgress oracle the Poller times out
carrying the last known status, and on an always-transient oracle one
transient query consumes one attempt and the loop continues with updated
elapsed time and clamped delay. -/
theorem pollTimeout_and_transient_counts_witness :
    (∃ n, awaitCompletion alwaysInProgress policy100 job1
        = (.error (.pollTimeout (lastKnownStatus alwaysInProgress job1.status n)), n)) ∧
    awaitLoop alwaysTransient policy100 job1 4 0 0 100 .pending
      = awaitLoop alwaysTransient policy100 job1 3 1 100 200 .pending := by
  constructor
  · exact pollTimeout_and_transient_counts.1 alwaysInProgress policy100 job1 (fun i => rfl)
  · exact pollTimeout_and_transient_counts.2 alwaysTransient policy100 job1 3 0 0 100 .pending
      "network error" rfl (by decide)

/-- Claim C7, counterexample: the claim's hypotheses admit a policy whose
`initialDelay` exceeds `maxDelay` (the spec's invariant clamps only the
subsequent delays); for such a policy the first inter-attempt delay exceeds
`maxDelay` and the sequence decreases at its first step. -/
theorem delaySeq_unclamped_initial_exceeds_max :
    0 < badPolicy.initialDelay ∧ 1 ≤ badPolicy.backoffMultiplier ∧
    badPolicy.maxDelay < delaySeq badPolicy 0 ∧
    delaySeq badPolicy 1 < delaySeq badPolicy 0 := by
  decide

/-- Claim C7, amended: the inter-attempt delays follow
`delay = min(delay * backoffMultiplier, maxDelay)`; for every policy with
`initialDelay > 0`, `backoffMultiplier >= 1` and additionally
`initialDelay <= maxDelay`, the sequence is non-decreasing and never exceeds
`maxDelay`; and for `initialDelay=100, backoffMultiplier=2, maxDelay=1000`
the successive delays are 100, 200, 400, 800, 1000, 1000, ... -/
theorem delaySeq_clamped_monotone :
    (∀ (p : PollPolicy) (n : Nat),
      delaySeq p (n + 1) = min (delaySeq p n * p.backoffMultiplier) p.maxDelay) ∧
    (∀ p : PollPolicy, 0 < p.initialDelay → 1 ≤ p.backoffMultiplier →
      p.initialDelay ≤ p.maxDelay →
      (∀ n, delaySeq p n ≤ delaySeq p (n + 1)) ∧ (∀ n, delaySeq p n ≤ p.maxDelay)) ∧
    (delaySeq policy100 0 = 100 ∧ delaySeq policy100 1 = 200 ∧ delaySeq policy100 2 = 400 ∧
      delaySeq policy100 3 = 800 ∧ delaySeq policy100 4 = 1000 ∧
      ∀ n, 4 ≤ n → delaySeq policy100 n = 1000) := by
  refine ⟨fun p n => rfl, ?_, by decide, by decide, by decide, by decide, by decide, ?_⟩
  · intro p hd hm him
    have hb : ∀ n, delaySeq p n ≤ p.maxDelay := by
      intro n
      induction n with
      | zero => exact him
      | succ n ih => exact min_le_right _ _
    refine ⟨?_, hb⟩
    intro n
    have h1 : delaySeq p n ≤ delaySeq p n * p.backoffMultiplier :=
      le_mul_of_one_le_right (Nat.zero_le _) hm
    exact le_min h1 (hb n)
  · intro n hn
    induction n, hn using Nat.le_induction with
    | base => decide
    | succ n hn ih =>
      have hstep : delaySeq policy100 (n + 1) = nextDelay policy100 (delaySeq policy100 n) := rfl
      rw [hstep, ih]
      decide

/-- Claim C7, witness: for the 100/2/1000 policy the delay sequence is
non-decreasing at step 2, bounded by `maxDelay` at step 3, and constantly
1000 from step 4 on (sampled at step 6). -/
theorem delaySeq_clamped_monotone_witness :
    delaySeq policy100 2 ≤ delaySeq policy100 3 ∧
    delaySeq policy100 3 ≤ policy100.maxDelay ∧
    delaySeq policy100 6 = 1000 := by
  have hmono := delaySeq_clamped_monotone.2.1 policy100 (by decide) (by decide) (by decide)
  have hconst := delaySeq_clamped_monotone.2.2
  exact ⟨hmono.1 2, hmono.2 3, hconst.2.2.2.2.2 6 (by decide)⟩

/-- Claim C1, counterexample: on a remote where every stage succeeds and the
rendered content is empty, `getFullContent` returns the absent result, but
the `coda_get_page_content` handler reports it as an error result rather
than a valid empty success. -/
theorem emptyPage_reported_as_error :
    getFullContent emptyPageRemote policy100 = .ok none ∧
    codaGetPageContent (getFullContent emptyPageRemote policy100)
      = ⟨"Failed to get page content: Error: Unknown error has occurred", true⟩ :=
  ⟨rfl, rfl⟩

/-- Claim C1, amended: `getFullContent` returns the absent result only when
the Requester, the Poller and the Fetcher all report success and the
rendered content is empty — the absent result is a success value of the
pipeline, not an error — but the `coda_get_page_content` handler converts
the absent result into an error result ("Unknown error has occurred")
instead of returning the empty page as a valid success. -/
theorem getFullContent_absent_only_all_success_empty :
    (∀ (r : Remote) (p : PollPolicy), getFullContent r p = .ok none →
      ∃ job j loc, r.submitExport = .ok job ∧
        (awaitCompletion r.queries p job).1 = .ok j ∧
        j.status = .complete ∧ j.contentLocator = some loc ∧
        r.download loc = .ok "") ∧
    codaGetPageContent (.ok none)
      = ⟨"Failed to get page content: Error: Unknown error has occurred", true⟩ := by
  refine ⟨?_, rfl⟩
  intro r p h
  simp only [getFullContent] at h
  split at h
  · simp at h
  · rename_i job hs
    split at h
    · simp at h
    · rename_i j hp
      split at h
      · simp at h
      · rename_i hnf
        split at h
        · simp at h
        · rename_i loc hloc
          split at h
          · simp at h
          · rename_i text hd
            have hp1 := hp
            rw [awaitCompletion] at hp1
            rcases awaitLoop_fst_ok r.queries p job _ _ _ _ _ _ hp1 with ⟨hc, loc2, hloc2⟩ | hf
            · by_cases htext : text = ""
              · exact ⟨job, j, loc, hs, hp, hc, hloc, htext ▸ hd⟩
              · rw [if_neg htext] at h; simp at h
            · exact absurd hf hnf

/-- Claim C1, witness: the all-stages-succeed, empty-content remote
instantiates the amended theorem. -/
theorem getFullContent_absent_witness :
    ∃ job j loc, emptyPageRemote.submitExport = .ok job ∧
      (awaitCompletion emptyPageRemote.queries policy100 job).1 = .ok j ∧
      j.status = .complete ∧ j.contentLocator = some loc ∧
      emptyPageRemote.download loc = .ok "" :=
  getFullContent_absent_only_all_success_empty.1 emptyPageRemote policy100 rfl

end Coda
